import Mathlib

/-
Verification of the lightstream-webrtc-client state machines.

The repository contains two implementations of the session/media logic:
an xstate rewrite (src/media.ts: mediaMachine, roomMachine and the room
services) and a legacy reactive-model implementation (src/room.js and
src/media.js).  Both are embedded below as explicit step functions on
record states; machine events, invoked services and emitted side effects
(transport operations, signaling requests, log entries) are reified so
that transition behaviour and effect traces can be stated and proved.
-/

namespace LightstreamWebRTC

/-- Stand-in for MediaStreamTrack identity: switching only ever compares and
reassigns track references, so tracks are modelled by an id. -/
abbrev Track := Nat

/-- Originator tag carried by mediasoup pause/resume events
(the source strings are the JS strings "local" and "remote";
"local" is a Lean keyword, hence the Side suffix). -/
inductive Originator
  | localSide
  | remoteSide
deriving DecidableEq

/-- Context of the xstate mediaMachine (media.ts lines 24-195): the fields its
guards and actions read.  producerPaused/consumerPaused mirror
context.producer?.paused and context.consumer?.paused as read by the
isPaused guard. -/
structure MediaCtx where
  id : String
  track : Track
  producerPaused : Bool := false
  consumerPaused : Bool := false
deriving DecidableEq

/-- Substates of the mediaMachine's active compound state: live.healthy,
live.unhealthy, and paused.  The transient initial substate named by an
underscore in the source resolves immediately (see enterActive) and is
therefore not a resting state. -/
inductive MediaSub
  | healthy
  | unhealthy
  | pausedSub
deriving DecidableEq

/-- Resting configurations of the mediaMachine.  switching carries the track
passed with the SWITCH event, which the invoked switch service returns as
event.data.track on completion. -/
inductive MediaNode
  | active (sub : MediaSub)
  | switching (pending : Track)
  | stopped
deriving DecidableEq

/-- MediaMachineEvent (index.ts lines 250-259).  switchDone/switchFailed model
the onDone/onError resolution of the invoked switch service. -/
inductive MediaEvent
  | switch (t : Track)
  | switchDone
  | switchFailed
  | pausedEv
  | resumedEv
  | closedEv
  | trackMetadataFailure
  | trackMetadataResolved
  | trackEnded
deriving DecidableEq

/-- Observable effects of the mediaMachine: the replaceTrack call made by the
switch service, the close action run on entering stopped, and the
sendParent MEDIA.CLOSED report from the stopped entry actions. -/
inductive MediaEffect
  | replaceTrack (t : Track)
  | closeTransport
  | reportClosed (id : String)
deriving DecidableEq

/-- The isPaused guard of the mediaMachine (media.ts lines 132-136). -/
def isPaused (c : MediaCtx) : Bool :=
  c.producerPaused || c.consumerPaused

/-- Entering the active compound state: the transient initial substate moves
to paused when the isPaused guard holds, else to live, whose initial
substate is healthy (media.ts lines 56-79). -/
def enterActive (c : MediaCtx) : MediaNode :=
  if isPaused c then .active .pausedSub else .active .healthy

/-- Entering stopped (media.ts lines 119-128): the entry actions close the
consumer/producer and report MEDIA.CLOSED with the context id to the
parent session. -/
def enterStopped (c : MediaCtx) : MediaNode × MediaCtx × List MediaEffect :=
  (.stopped, c, [.closeTransport, .reportClosed c.id])

/-- One transition of the mediaMachine.  CLOSED, SWITCH and TRACK.ENDED are
handled on the active compound state; PAUSED on live, RESUMED on paused,
and the metadata events on healthy/unhealthy.  Entering switching invokes
the switch service, which calls producer.replaceTrack exactly once; its
onDone assigns the new track and targets active, its onError targets
stopped.  Unhandled event/state pairs leave the machine unchanged. -/
def mediaStep : MediaNode → MediaCtx → MediaEvent → MediaNode × MediaCtx × List MediaEffect
  | .active _, c, .closedEv => enterStopped c
  | .active _, c, .trackEnded => enterStopped c
  | .active _, c, .switch t => (.switching t, c, [.replaceTrack t])
  | .active .healthy, c, .trackMetadataFailure => (.active .unhealthy, c, [])
  | .active .unhealthy, c, .trackMetadataResolved => (.active .healthy, c, [])
  | .active .healthy, c, .pausedEv => (.active .pausedSub, c, [])
  | .active .unhealthy, c, .pausedEv => (.active .pausedSub, c, [])
  | .active .pausedSub, c, .resumedEv => (.active .healthy, c, [])
  | .switching t, c, .switchDone =>
      let c2 := { c with track := t }
      (enterActive c2, c2, [])
  | .switching _, c, .switchFailed => enterStopped c
  | s, c, _ => (s, c, [])

/-- Run the mediaMachine over a list of events, accumulating effects. -/
def runMedia : MediaNode → MediaCtx → List MediaEvent → MediaNode × MediaCtx × List MediaEffect
  | s, c, [] => (s, c, [])
  | s, c, e :: es =>
      let r1 := mediaStep s c e
      let r2 := runMedia r1.1 r1.2.1 es
      (r2.1, r2.2.1, r1.2.2 ++ r2.2.2)

/-- Whether a mediaMachine configuration lies inside the active compound
state. -/
def MediaNode.isActive : MediaNode → Bool
  | .active _ => true
  | _ => false

/-- Lifecycle states of the legacy Media model (media.js STATE, lines 20-27).
The source state named "local" is rendered localTrack ("local" is a Lean
keyword). -/
inductive LegacyState
  | preparing
  | localTrack
  | activating
  | active
  | paused
  | inactive
deriving DecidableEq

/-- The fields of the legacy Media model (media.js) read and written by
activate(), unpause(), and the consumer pause/resume event handlers.
hasTrack models whether this.track is non-null. -/
structure LegacyMedia where
  state : LegacyState
  locallyPaused : Bool := false
  remotelyPaused : Bool := false
  hasConsumer : Bool := false
  hasProducer : Bool := false
  hasTrack : Bool := false
  dependants : List String := []
  roomConnected : Bool := false
deriving DecidableEq

/-- The consumer "pause" event handler (media.js lines 387-400): a local pause
sets locallyPaused and moves the state to paused; a remote pause sets
remotelyPaused and discards the track via updateTrack(null) without
changing the state field. -/
def consumerOnPause (m : LegacyMedia) (orig : Originator) : LegacyMedia :=
  match orig with
  | .localSide => { m with locallyPaused := true, state := .paused }
  | .remoteSide => { m with remotelyPaused := true, hasTrack := false }

/-- The consumer "resume" event handler (media.js lines 401-414): the
originator's own pause flag is cleared (a remote resume also restores the
consumer track), and then the state is set to active unconditionally,
regardless of the other side's flag. -/
def consumerOnResume (m : LegacyMedia) (orig : Originator) : LegacyMedia :=
  match orig with
  | .localSide => { m with locallyPaused := false, state := .active }
  | .remoteSide =>
      { m with remotelyPaused := false, hasTrack := true, state := .active }

/-- Transport-boundary operations started by the legacy Media.  produceSend
stands for the createProducer/producer.send path entered by send(),
consumeReceive for the consumer.receive call of receive(), resumeRtp for a
producer.resume()/consumer.resume() issued by unpause(). -/
inductive TransportOp
  | produceSend
  | consumeReceive
  | resumeRtp
deriving DecidableEq

/-- media.js unpause() (lines 279-289): resumes RTP on the producer and/or
consumer, whichever exist. -/
def unpause (m : LegacyMedia) : List TransportOp :=
  (if m.hasProducer then [TransportOp.resumeRtp] else [])
    ++ (if m.hasConsumer then [TransportOp.resumeRtp] else [])

/-- media.js activate() (lines 233-267).  A paused consumer short-circuits to
unpause() before any guard is evaluated; otherwise the call is ignored
when the media is already activating/active/paused, the room is not
connected, or no dependant is registered; otherwise the state becomes
activating and the async receive()/send() service is entered (receive()
itself short-circuits to unpause() when locallyPaused, media.js line 372;
the remainder of those async bodies is a separate suspension point and is
not modelled here, the claims only need that it is or is not reached). -/
def activate (m : LegacyMedia) : LegacyMedia × List TransportOp :=
  if m.hasConsumer = true ∧ m.state = .paused then (m, unpause m)
  else if (m.state = .activating ∨ m.state = .active ∨ m.state = .paused)
      ∨ ¬ m.roomConnected = true ∨ m.dependants = [] then
    (m, [])
  else
    let m2 := { m with state := LegacyState.activating }
    if m.hasConsumer then
      if m.locallyPaused then (m2, unpause m2)
      else (m2, [TransportOp.consumeReceive])
    else (m2, [TransportOp.produceSend])

/-- Iterate activate() n times, accumulating the transport operations. -/
def activateRun (m : LegacyMedia) : Nat → LegacyMedia × List TransportOp
  | 0 => (m, [])
  | n + 1 =>
      let r1 := activate m
      let r2 := activateRun r1.1 n
      (r2.1, r1.2 ++ r2.2)

/-- Connection states of the legacy Room (room.js STATE, lines 34-40). -/
inductive RoomJSState
  | connecting
  | preparing
  | connected
  | reconnecting
  | closedState
deriving DecidableEq

/-- The legacy Room fields used by the heartbeat branch of
_handleProtooRequest (room.js lines 458-499).  peers is the tracked remote
roster; the local roster compared against the server is myPeer plus these
(room.js line 466). -/
structure RoomJS where
  connState : RoomJSState
  hasStateMismatch : Bool := false
  isReconcilingState : Bool := false
  peers : List String := []
deriving DecidableEq

/-- Observable actions of the heartbeat handler: logPeerMismatch is the
logEvent of a StateException with kind PeerMismatch (room.js lines
470-474), logStateRecovery the StateRecovery logEvent (line 479),
forceReconnect the close()-then-open().then(join()) cycle (lines
488-489). -/
inductive HeartbeatAction
  | logPeerMismatch
  | logStateRecovery
  | forceReconnect
deriving DecidableEq

/-- The heartbeat branch of room.js _handleProtooRequest (lines 458-499).
The request is accepted, then ignored unless the room state is connected.
A fresh length mismatch between the server roster and myPeer plus the
local peers sets hasStateMismatch and logs the PeerMismatch exception; an
already-flagged room otherwise clears both flags and logs recovery.  If
the flag is set and no reconciliation is in flight, a full reconnect is
forced: isReconcilingState is set, close() runs, and open() synchronously
sets the state to connecting before its first await.  The trailing
per-peer field patching touches only known peers' mutable fields and is
not modelled. -/
def handleHeartbeat (r : RoomJS) (serverPeers : List String) :
    RoomJS × List HeartbeatAction :=
  if ¬ r.connState = RoomJSState.connected then (r, [])
  else
    let localLen := 1 + r.peers.length
    let step1 : RoomJS × List HeartbeatAction :=
      if ¬ r.hasStateMismatch = true ∧ ¬ serverPeers.length = localLen then
        ({ r with hasStateMismatch := true }, [HeartbeatAction.logPeerMismatch])
      else if r.hasStateMismatch then
        ({ r with hasStateMismatch := false, isReconcilingState := false },
          [HeartbeatAction.logStateRecovery])
      else (r, [])
    if step1.1.hasStateMismatch = true ∧ ¬ step1.1.isReconcilingState = true then
      ({ step1.1 with
          isReconcilingState := true,
          connState := RoomJSState.connecting },
        step1.2 ++ [HeartbeatAction.forceReconnect])
    else step1

/-- A roster entry of the xstate room context (index.ts Peer). -/
structure PeerEntry where
  id : String
  info : String := ""
deriving DecidableEq

/-- A media entry of the room context (index.ts Media plus the appData spread
into it).  The spawned actor is registered under the media id (media.ts
lines 1118-1132, spawn name event.media.id), so the id doubles as the
actor name.  The empty string models a falsy (missing) deviceId. -/
structure MediaEntry where
  id : String
  mtype : String := ""
  deviceId : String := ""
  peerId : String := ""
  isLocal : Bool := false
deriving DecidableEq

/-- The part of RoomMachineContext (index.ts) assigned by the roomMachine's
actions: the peer roster and the media list. -/
structure RoomCtx where
  peers : List PeerEntry := []
  media : List MediaEntry := []
deriving DecidableEq

/-- Resting configurations of the roomMachine (media.ts lines 918-1135):
waiting, active.connecting, the five active.connected substates, and
active.reconnecting.  The source substate named "left" is rendered
leftRoom. -/
inductive RoomNode
  | waiting
  | connecting
  | connectedWaiting
  | joining
  | joined
  | leaving
  | leftRoom
  | reconnecting
deriving DecidableEq

/-- Whether a configuration lies inside the connected compound state, where
the roster/media event handlers and SOCKET.DISCONNECTED are installed. -/
def RoomNode.isConnected : RoomNode → Bool
  | .connectedWaiting => true
  | .joining => true
  | .joined => true
  | .leaving => true
  | .leftRoom => true
  | _ => false

/-- RoomMachineEvent (index.ts lines 170-196) restricted to the transitions
embedded here.  joinDone/joinError and leaveDone/leaveError model the
onDone/onError resolutions of the invoked performJoin/performLeave
services; joinDone carries the roster returned by performJoin (which
already appends the local peer).  commandFailed is the COMMAND_FAILED
event a command handler sends back on rejection; the machine declares no
handler for it. -/
inductive RoomEvent
  | connect
  | disconnect
  | socketConnected
  | socketDisconnected
  | socketClosed
  | joinCmd
  | joinDone (peers : List PeerEntry)
  | joinError
  | leaveCmd
  | leaveDone
  | leaveError
  | mediaClosed (mediaId : String)
  | peerJoined (p : PeerEntry)
  | peerLeft (peerId : String)
  | peerUpdated (peerId : String) (info : String)
  | localMediaAdded (m : MediaEntry)
  | remoteMediaAdded (m : MediaEntry)
  | commandFailed
deriving DecidableEq

/-- Effects of roomMachine transitions: service invocations on entering
joining/leaving, and actor.stop() calls made by the second MEDIA.CLOSED
action. -/
inductive RoomEffect
  | invokeJoin
  | invokeLeave
  | stopActor (id : String)
deriving DecidableEq

/-- The reset action (media.ts lines 1114-1117): clears peers and media.  It
runs on exiting active and on performLeave's onDone. -/
def reset (c : RoomCtx) : RoomCtx :=
  { c with peers := [], media := [] }

/-- The addMedia action (media.ts lines 1118-1132): appends the event's media
(with its freshly spawned actor) to the list unconditionally. -/
def addMedia (c : RoomCtx) (m : MediaEntry) : RoomCtx :=
  { c with media := c.media ++ [m] }

/-- One transition of the roomMachine (media.ts lines 918-1135).  DISCONNECT
and SOCKET.CLOSED are root-level and target waiting, running the reset
exit action of active when leaving it.  SOCKET.CONNECTED from
reconnecting targets the connected compound state, which re-enters at its
initial substate waiting.  The MEDIA.CLOSED handler first runs its assign
action (xstate batches assigns ahead of other actions), filtering the
media list, and then the side-effect action, which stops the actors of
the entries of the already-updated list whose id equals the event's
mediaId.  Unhandled event/state pairs leave the machine unchanged. -/
def roomStep : RoomNode → RoomCtx → RoomEvent → RoomNode × RoomCtx × List RoomEffect
  | s, c, .disconnect =>
      if s = .waiting then (.waiting, c, []) else (.waiting, reset c, [])
  | s, c, .socketClosed =>
      if s = .waiting then (.waiting, c, []) else (.waiting, reset c, [])
  | .waiting, c, .connect => (.connecting, c, [])
  | .connecting, c, .socketConnected => (.connectedWaiting, c, [])
  | .reconnecting, c, .socketConnected => (.connectedWaiting, c, [])
  | s, c, .socketDisconnected =>
      if s.isConnected then (.reconnecting, c, []) else (s, c, [])
  | s, c, .peerJoined p =>
      if s.isConnected then (s, { c with peers := c.peers ++ [p] }, [])
      else (s, c, [])
  | s, c, .peerLeft pid =>
      if s.isConnected then
        (s,
          { c with
              peers := c.peers.filter (fun x => ¬ x.id = pid),
              media := c.media.filter (fun x => ¬ x.peerId = pid) },
          [])
      else (s, c, [])
  | s, c, .peerUpdated pid info =>
      if s.isConnected then
        (s,
          { c with
              peers := c.peers.map
                (fun x => if ¬ x.id = pid then x else { x with info := info }) },
          [])
      else (s, c, [])
  | s, c, .localMediaAdded m =>
      if s.isConnected then (s, addMedia c m, []) else (s, c, [])
  | s, c, .remoteMediaAdded m =>
      if s.isConnected then (s, addMedia c m, []) else (s, c, [])
  | s, c, .mediaClosed mid =>
      if s.isConnected then
        let c2 := { c with media := c.media.filter (fun x => ¬ x.id = mid) }
        (s, c2,
          (c2.media.filter (fun x => x.id = mid)).map
            (fun x => RoomEffect.stopActor x.id))
      else (s, c, [])
  | .connectedWaiting, c, .joinCmd => (.joining, c, [.invokeJoin])
  | .leftRoom, c, .joinCmd => (.joining, c, [.invokeJoin])
  | .joining, c, .joinDone ps => (.joined, { c with peers := ps }, [])
  | .joining, c, .joinError => (.connectedWaiting, c, [])
  | .joined, c, .leaveCmd => (.leaving, c, [.invokeLeave])
  | .leaving, c, .leaveDone => (.leftRoom, reset c, [])
  | .leaving, c, .leaveError => (.joined, c, [])
  | s, c, _ => (s, c, [])

/-- Run the roomMachine over a list of events, accumulating effects. -/
def runRoom : RoomNode → RoomCtx → List RoomEvent → RoomNode × RoomCtx × List RoomEffect
  | s, c, [] => (s, c, [])
  | s, c, e :: es =>
      let r1 := roomStep s c e
      let r2 := runRoom r1.1 r1.2.1 es
      (r2.1, r2.2.1, r1.2.2 ++ r2.2.2)

/-- The (type, deviceId, peerId) triple of a media entry. -/
def sameTriple (a b : MediaEntry) : Prop :=
  a.mtype = b.mtype ∧ a.deviceId = b.deviceId ∧ a.peerId = b.peerId

instance (a b : MediaEntry) : Decidable (sameTriple a b) := by
  unfold sameTriple
  infer_instance

/-- The spec invariant on a media list: at most one locally produced entry per
(type, deviceId, peerId) triple. -/
def localTripleUnique (l : List MediaEntry) : Prop :=
  l.Pairwise (fun a b => a.isLocal = true → b.isLocal = true → ¬ sameTriple a b)

instance (l : List MediaEntry) : Decidable (localTripleUnique l) := by
  unfold localTripleUnique
  infer_instance

/-- Match criteria handed to the legacy getMatchingMedia; none marks a field
that was falsy and hence dropped by the pickBy(Boolean ...) inside
isAcceptableMedia (room.js line 55). -/
structure MediaCriteria where
  mtype : Option String := none
  deviceId : Option String := none
  peerId : Option String := none
deriving DecidableEq

/-- whereEq over the retained criteria fields: every criterion present must
equal the candidate's field. -/
def matchesCriteria (v : MediaCriteria) (m : MediaEntry) : Bool :=
  (match v.mtype with | none => true | some t => m.mtype == t)
    && (match v.deviceId with | none => true | some d => m.deviceId == d)
    && (match v.peerId with | none => true | some p => m.peerId == p)

/-- room.js getMatchingMedia (lines 811-813): the first media matching the
criteria. -/
def getMatchingMedia (l : List MediaEntry) (v : MediaCriteria) : Option MediaEntry :=
  l.find? (fun m => matchesCriteria v m)

/-- pickBy(Boolean ...) on one string field: a falsy (empty) value is dropped
from the criteria. -/
def pickTruthy (s : String) : Option String :=
  if s = "" then none else some s

/-- room.js addMedia (lines 814-845) restricted to its effect on the media
list.  none models the throw on a falsy type.  When an exact (truthy-field)
match exists the existing entry is updated in place and returned, leaving
the list unchanged; otherwise a new locally produced Media is appended. -/
def addMediaJS (l : List MediaEntry) (mtype deviceId peerId newId : String) :
    Option (List MediaEntry) :=
  if mtype = "" then none
  else
    let crit : MediaCriteria :=
      { mtype := pickTruthy mtype,
        deviceId := pickTruthy deviceId,
        peerId := pickTruthy peerId }
    match getMatchingMedia l crit with
    | some _ => some l
    | none =>
        some (l ++
          [{ id := newId, mtype := mtype, deviceId := deviceId,
             peerId := peerId, isLocal := true }])

/-- How an inbound server-initiated request is answered: accepted, or rejected
with a code and reason. -/
inductive ProtooResponse
  | accepted
  | rejected (code : Nat) (reason : String)
deriving DecidableEq

/-- The method dispatch of the legacy _handleProtooRequest (room.js lines
431-540): event, heartbeat, mediasoup-notification, active-speaker and
message are accepted (each case calls accept() first); any other method
falls to the default case and is rejected with 404 "unknown method". -/
def handleProtooRequestResponse (method : String) : ProtooResponse :=
  if method = "event" ∨ method = "heartbeat" ∨ method = "mediasoup-notification"
      ∨ method = "active-speaker" ∨ method = "message" then
    .accepted
  else .rejected 404 "unknown method"

/-- The xstate requestHandler (media.ts lines 321-382): only newConsumer is
handled — accept() after recvTransport.consume succeeds, reject
(wrapped by the socket service into a 403, media.ts lines 725-735, with
the thrown error as reason) when it throws.  Any other request name falls
through the switch with neither accept nor reject, returning none. -/
def requestHandlerResponse (name : String) (consumeSucceeds : Bool)
    (errMsg : String) : Option ProtooResponse :=
  if name = "newConsumer" then
    if consumeSucceeds then some .accepted else some (.rejected 403 errMsg)
  else none

/-- Payload fields read by the notificationHandler. -/
structure NotificationData where
  id : String := ""
  info : String := ""
  device : String := ""
  peerId : String := ""
  consumerId : String := ""
deriving DecidableEq

/-- What the notificationHandler does with one notification: send a Session
event back to the roomMachine, forward CLOSED to a media actor, or
nothing at all. -/
inductive NotificationOutcome
  | sessionEvent (e : RoomEvent)
  | actorClosed (consumerId : String)
  | ignored
deriving DecidableEq

/-- The xstate notificationHandler (media.ts lines 259-320): newPeer,
peerClosed and peerUpdated send roster events back to the machine,
consumerClosed forwards CLOSED to the consumer's actor, and any other
name falls through the switch with no effect, so the Session context is
untouched.  (Diagnostic-only names never reach this handler: the socket
service routes them to the onDiagnostics sink, media.ts lines 739-756.) -/
def notificationOutcome (name : String) (d : NotificationData) :
    NotificationOutcome :=
  if name = "newPeer" then
    .sessionEvent (.peerJoined { id := d.id, info := d.info })
  else if name = "peerClosed" then .sessionEvent (.peerLeft d.peerId)
  else if name = "peerUpdated" then
    .sessionEvent (.peerUpdated d.peerId d.info)
  else if name = "consumerClosed" then .actorClosed d.consumerId
  else .ignored

/-- A websocket retry policy, as passed to protooClient.WebSocketTransport.
retries none means the package's "forever" mode. -/
structure RetryPolicy where
  minTimeout : Nat
  maxTimeout : Nat
  factor : Nat
  retries : Option Nat
deriving DecidableEq

/-- The retry options of the legacy room.js open() (lines 226-228):
factor 2, forever, minTimeout 100, maxTimeout 10000. -/
def roomJsRetry : RetryPolicy :=
  { minTimeout := 100, maxTimeout := 10000, factor := 2, retries := none }

/-- The retry options of the xstate socket service (media.ts lines 685-696):
retries 30, factor 2, minTimeout 0.5 * 1000, maxTimeout 10 * 1000. -/
def socketRetry : RetryPolicy :=
  { minTimeout := 500, maxTimeout := 10000, factor := 2, retries := some 30 }

/-- Modelled from the spec: the reconnection backoff of the retry library
consumed by protoo-client is not part of src/; per the spec's policy
shape ("exponential backoff bounded by a minimum and maximum interval"),
attempt n waits min(maxTimeout, minTimeout * factor ^ n). -/
def backoffInterval (p : RetryPolicy) (n : Nat) : Nat :=
  min p.maxTimeout (p.minTimeout * p.factor ^ n)

/-- The fields of a context media entry read by the command handler.  Entries
created by the machine carry either a producer (LOCAL_MEDIA_ADDED) or a
consumer (REMOTE_MEDIA_ADDED), never both; the id of that capability is
also the media id (media.ts lines 365-375 and 472-482). -/
structure CmdMedia where
  id : String
  hasConsumer : Bool := false
  consumerClosed : Bool := false
  consumerId : String := ""
  hasProducer : Bool := false
  producerClosed : Bool := false
  producerId : String := ""
deriving DecidableEq

/-- The media-targeting commands of the commandHandler (media.ts lines
564-673). -/
inductive Command
  | pauseMedia (mediaId : String)
  | resumeMedia (mediaId : String)
  | stopSendingMedia (mediaId : String)
  | switchVideo (mediaId : String)
  | switchAudio (mediaId : String)
deriving DecidableEq

/-- The command's wire name, used in the COMMAND_FAILED report. -/
def Command.name : Command → String
  | .pauseMedia _ => "PauseMedia"
  | .resumeMedia _ => "ResumeMedia"
  | .stopSendingMedia _ => "StopSendingMedia"
  | .switchVideo _ => "SwitchVideo"
  | .switchAudio _ => "SwitchAudio"

/-- The mediaId carried in the command's payload. -/
def Command.mediaId : Command → String
  | .pauseMedia mid => mid
  | .resumeMedia mid => mid
  | .stopSendingMedia mid => mid
  | .switchVideo mid => mid
  | .switchAudio mid => mid

/-- Observable effects of one command invocation, in program order:
signaling requests over protoo, the COMMAND_FAILED rejection sent back to
the machine, events sent to the media's actor, and direct
pause/resume/close calls on the local capability object. -/
inductive CmdEffect
  | protooRequest (name : String) (targetId : String)
  | commandFailed (cmdName : String) (reason : String)
  | actorSend (mediaId : String) (eventName : String)
  | capabilityPause (targetId : String)
  | capabilityResume (targetId : String)
  | capabilityClose (targetId : String)
deriving DecidableEq

/-- The media-targeting cases of the commandHandler (media.ts lines 564-673),
transcribed with their effect order.  Every case first looks the mediaId
up in context.media and rejects with "Media not found" when absent.
ResumeMedia checks consumer.closed before requesting resumeConsumer and
producer.closed before requesting resumeProducer, rejecting "Media is
closed".  StopSendingMedia and the switches require a producer
("Media is not sending").  The switches acquire a track (external
getUserMedia, outcome gotTrack) and reject "Failed to get video track"
without it — the audio case reuses the video wording (media.ts line 667) —
else they send SWITCH to the actor. -/
def handleCommand (cmd : Command) (media : List CmdMedia) (gotTrack : Bool) :
    List CmdEffect :=
  match cmd with
  | .pauseMedia mid =>
      match media.find? (fun x => x.id == mid) with
      | none => [.commandFailed "PauseMedia" "Media not found"]
      | some m =>
          (if m.hasConsumer then
              [CmdEffect.protooRequest "pauseConsumer" m.consumerId,
               CmdEffect.capabilityPause m.consumerId]
            else [])
            ++ (if m.hasProducer then
                [CmdEffect.protooRequest "pauseProducer" m.producerId,
                 CmdEffect.capabilityPause m.producerId]
              else [])
            ++ [CmdEffect.actorSend mid "PAUSED"]
  | .resumeMedia mid =>
      match media.find? (fun x => x.id == mid) with
      | none => [.commandFailed "ResumeMedia" "Media not found"]
      | some m =>
          if m.hasConsumer = true ∧ m.consumerClosed = true then
            [.commandFailed "ResumeMedia" "Media is closed"]
          else
            let consumerPart :=
              if m.hasConsumer then
                [CmdEffect.protooRequest "resumeConsumer" m.consumerId,
                 CmdEffect.capabilityResume m.consumerId]
              else []
            if m.hasProducer = true ∧ m.producerClosed = true then
              consumerPart ++ [.commandFailed "ResumeMedia" "Media is closed"]
            else
              consumerPart
                ++ (if m.hasProducer then
                    [CmdEffect.protooRequest "resumeProducer" m.producerId,
                     CmdEffect.capabilityResume m.producerId]
                  else [])
                ++ [CmdEffect.actorSend mid "RESUMED"]
  | .stopSendingMedia mid =>
      match media.find? (fun x => x.id == mid) with
      | none => [.commandFailed "StopSendingMedia" "Media not found"]
      | some m =>
          if ¬ m.hasProducer = true then
            [.commandFailed "StopSendingMedia" "Media is not sending"]
          else
            [CmdEffect.protooRequest "closeProducer" m.producerId,
             CmdEffect.capabilityClose m.producerId,
             CmdEffect.actorSend mid "CLOSED"]
  | .switchVideo mid =>
      match media.find? (fun x => x.id == mid) with
      | none => [.commandFailed "SwitchVideo" "Media not found"]
      | some m =>
          if ¬ m.hasProducer = true then
            [.commandFailed "SwitchVideo" "Media is not sending"]
          else if ¬ gotTrack = true then
            [.commandFailed "SwitchVideo" "Failed to get video track"]
          else [CmdEffect.actorSend mid "SWITCH"]
  | .switchAudio mid =>
      match media.find? (fun x => x.id == mid) with
      | none => [.commandFailed "SwitchAudio" "Media not found"]
      | some m =>
          if ¬ m.hasProducer = true then
            [.commandFailed "SwitchAudio" "Media is not sending"]
          else if ¬ gotTrack = true then
            [.commandFailed "SwitchAudio" "Failed to get video track"]
          else [CmdEffect.actorSend mid "SWITCH"]

/-- Concrete active consumer Media used to exhibit the C3 counterexample. -/
def mediaC3 : LegacyMedia :=
  { state := .active, hasConsumer := true }

/-- Concrete paused consumer Media in a disconnected room with no
dependants. -/
def mediaC6 : LegacyMedia :=
  { state := .paused, hasConsumer := true }

/-- Concrete joined-room context: a two-peer roster with one remote media. -/
def ctxC1 : RoomCtx :=
  { peers := [{ id := "self" }, { id := "peerX" }],
    media := [{ id := "m1", peerId := "peerX" }] }

/-- Concrete connected-room context with two media entries. -/
def ctxC9 : RoomCtx :=
  { peers := [{ id := "self" }],
    media := [{ id := "m1", peerId := "peerX" }, { id := "m2", peerId := "self" }] }

/-- A locally produced webcam entry. -/
def mediaEntryA : MediaEntry :=
  { id := "prod1", mtype := "webcam", deviceId := "dev1", peerId := "me",
    isLocal := true }

/-- A second locally produced entry with the same (type, deviceId, peerId)
triple as mediaEntryA but a fresh producer id. -/
def mediaEntryB : MediaEntry :=
  { id := "prod2", mtype := "webcam", deviceId := "dev1", peerId := "me",
    isLocal := true }

/-- A context media entry whose consumer is already closed. -/
def cmdMediaClosed : CmdMedia :=
  { id := "m7", hasConsumer := true, consumerClosed := true, consumerId := "m7" }

/-
Theorems.
-/

/-- C5: from any active configuration, SWITCH(trackA) settled then
SWITCH(trackB) settled leaves the bound track exactly trackB with the machine
back inside active and exactly one replaceTrack invocation per switch;
SWITCH is ignored in switching and in stopped, so it is only accepted from
active; a settled switch reassigns the bound track and re-enters active; a
failed replace moves the machine to stopped. -/
theorem switch_round_trip (c : MediaCtx) (sub : MediaSub) (a b : Track) :
    (runMedia (.active sub) c
        [.switch a, .switchDone, .switch b, .switchDone]).2.2
      = [.replaceTrack a, .replaceTrack b]
    ∧ (runMedia (.active sub) c
        [.switch a, .switchDone, .switch b, .switchDone]).2.1.track = b
    ∧ ((runMedia (.active sub) c
        [.switch a, .switchDone, .switch b, .switchDone]).1).isActive = true
    ∧ (∀ t : Track, mediaStep (.switching t) c (.switch a) = (.switching t, c, []))
    ∧ mediaStep .stopped c (.switch a) = (.stopped, c, [])
    ∧ (∀ t : Track, (mediaStep (.switching t) c .switchDone).2.1.track = t
        ∧ ((mediaStep (.switching t) c .switchDone).1).isActive = true)
    ∧ (∀ t : Track, mediaStep (.switching t) c .switchFailed
        = (.stopped, c, [.closeTransport, .reportClosed c.id])) := by
  obtain ⟨cid, ctr, pp, cp⟩ := c
  cases pp <;> cases cp <;> cases sub <;>
    simp [runMedia, mediaStep, enterActive, enterStopped, isPaused,
      MediaNode.isActive]

/-- C3 amended: the legacy per-origin flags are tracked independently — a
remote-originated resume clears only remotelyPaused and leaves a
locally-originated pause flag set — but both implementations return the
machine to active/live on a remote resume after a local pause: the legacy
consumer resume handler sets state to active unconditionally, and the
xstate mediaMachine tracks no originator at all, RESUMED moving paused
back to live. -/
theorem pause_resume_origin_tracking (m : LegacyMedia) (c : MediaCtx) :
    (consumerOnResume (consumerOnPause m .localSide) .remoteSide).locallyPaused = true
    ∧ (consumerOnResume (consumerOnPause m .localSide) .remoteSide).remotelyPaused = false
    ∧ (consumerOnResume (consumerOnPause m .localSide) .remoteSide).state
        = LegacyState.active
    ∧ mediaStep (.active .pausedSub) c .resumedEv = (.active .healthy, c, []) := by
  simp [consumerOnResume, consumerOnPause, mediaStep]

/-- C3 counterexample: on the legacy consumer handlers, PAUSED with local
originator followed by RESUMED with remote originator returns the machine
to active even though the locally-originated pause flag is still set — the
remote-originated resume alone does return the machine to active, contrary
to the claim. -/
theorem remote_resume_returns_active :
    (consumerOnResume (consumerOnPause mediaC3 .localSide) .remoteSide).state
        = LegacyState.active
    ∧ (consumerOnResume (consumerOnPause mediaC3 .localSide) .remoteSide).locallyPaused
        = true := by
  decide

/-- C6 amended: a Media with no dependants starting in preparing/local is
left exactly where it is by any number of activate() calls, with no
transport operation; outside the paused-consumer case activate() is a
no-op whenever the room is disconnected, no dependant is registered, or
the machine is already activating/active/paused; but a paused consumer
short-circuits to unpause(), which is not a no-op — it resumes RTP. -/
theorem activate_guard (m : LegacyMedia) (hdep : m.dependants = [])
    (hstate : m.state = LegacyState.preparing ∨ m.state = LegacyState.localTrack) :
    (∀ n, activateRun m n = (m, []))
    ∧ (∀ m2 : LegacyMedia, ¬ (m2.hasConsumer = true ∧ m2.state = LegacyState.paused) →
        ((m2.state = LegacyState.activating ∨ m2.state = LegacyState.active
            ∨ m2.state = LegacyState.paused)
          ∨ ¬ m2.roomConnected = true ∨ m2.dependants = []) →
        activate m2 = (m2, []))
    ∧ (∀ m2 : LegacyMedia, m2.hasConsumer = true → m2.state = LegacyState.paused →
        activate m2 = (m2, unpause m2) ∧ ¬ unpause m2 = []) := by
  have hc1 : ¬ (m.hasConsumer = true ∧ m.state = LegacyState.paused) := by
    rintro ⟨h1, h2⟩
    rcases hstate with h | h <;> rw [h] at h2 <;> cases h2
  have hnoop : activate m = (m, []) := by
    unfold activate
    rw [if_neg hc1, if_pos (Or.inr (Or.inr hdep))]
  refine ⟨?_, ?_, ?_⟩
  · intro n
    induction n with
    | zero => rfl
    | succ k ih => simp [activateRun, hnoop, ih]
  · intro m2 h1 h2
    unfold activate
    rw [if_neg h1, if_pos h2]
  · intro m2 hc hp
    refine ⟨?_, ?_⟩
    · unfold activate
      rw [if_pos ⟨hc, hp⟩]
    · simp [unpause, hc]

/-- C6 witness: three activate() calls on a fresh Media with no dependants
leave it untouched and start nothing. -/
theorem activate_guard_witness :
    ({ state := LegacyState.preparing } : LegacyMedia).dependants = []
    ∧ activateRun { state := LegacyState.preparing } 3
        = ({ state := LegacyState.preparing }, []) :=
  ⟨rfl, (activate_guard { state := LegacyState.preparing } rfl (Or.inl rfl)).1 3⟩

/-- C6 counterexample: a paused consumer Media with no dependants in a
disconnected room fails the claim's unless-condition (it is already
paused), yet activate() is not a no-op: it resumes RTP via unpause(). -/
theorem activate_paused_consumer_not_noop :
    mediaC6.dependants = [] ∧ mediaC6.roomConnected = false
    ∧ mediaC6.state = LegacyState.paused
    ∧ ¬ (activate mediaC6).2 = [] := by
  decide

/-- C2: the heartbeat drift protocol on a connected Session: a fresh length
mismatch sets the flag and logs the StateException of kind PeerMismatch;
a flagged heartbeat whose lengths now match clears both the mismatch flag
and the reconciliation flag; the forced reconnect-and-rejoin fires exactly
when a fresh mismatch is detected with no reconciliation in flight — hence
exactly once per detected episode and never while one is in flight — and
it leaves both flags set, so it cannot fire again before the flags
clear. -/
theorem heartbeat_drift_protocol (r : RoomJS) (serverPeers : List String)
    (h : r.connState = RoomJSState.connected) :
    ((¬ r.hasStateMismatch = true ∧ ¬ serverPeers.length = 1 + r.peers.length) →
        (handleHeartbeat r serverPeers).1.hasStateMismatch = true
        ∧ HeartbeatAction.logPeerMismatch ∈ (handleHeartbeat r serverPeers).2)
    ∧ ((r.hasStateMismatch = true ∧ serverPeers.length = 1 + r.peers.length) →
        (handleHeartbeat r serverPeers).1.hasStateMismatch = false
        ∧ (handleHeartbeat r serverPeers).1.isReconcilingState = false)
    ∧ ((handleHeartbeat r serverPeers).2.count HeartbeatAction.forceReconnect
        = if ¬ r.hasStateMismatch = true
              ∧ ¬ serverPeers.length = 1 + r.peers.length
              ∧ ¬ r.isReconcilingState = true
          then 1 else 0)
    ∧ (r.isReconcilingState = true →
        ¬ HeartbeatAction.forceReconnect ∈ (handleHeartbeat r serverPeers).2)
    ∧ (HeartbeatAction.forceReconnect ∈ (handleHeartbeat r serverPeers).2 →
        (handleHeartbeat r serverPeers).1.hasStateMismatch = true
        ∧ (handleHeartbeat r serverPeers).1.isReconcilingState = true) := by
  obtain ⟨cs, flag, recon, peers⟩ := r
  simp only at h
  subst h
  by_cases hl : serverPeers.length = 1 + peers.length <;>
    cases flag <;> cases recon <;>
    simp [handleHeartbeat, hl]

/-- C2 witness: a connected room tracking one remote peer receives a
three-peer heartbeat: the mismatch flag is set. -/
theorem heartbeat_drift_protocol_witness :
    (RoomJS.mk RoomJSState.connected false false ["p1"]).connState
        = RoomJSState.connected
    ∧ (handleHeartbeat (RoomJS.mk RoomJSState.connected false false ["p1"])
        ["a", "b", "c"]).1.hasStateMismatch = true :=
  ⟨rfl,
    ((heartbeat_drift_protocol (RoomJS.mk RoomJSState.connected false false ["p1"])
        ["a", "b", "c"] rfl).1 (by decide)).1⟩

/-- C1 amended: on SOCKET.DISCONNECTED a joined Session moves to
reconnecting without touching the roster or the media list, and on the
next SOCKET.CONNECTED it re-enters the connected compound state at its
initial waiting substate — not joined — still preserving both lists and
never invoking the performJoin service. -/
theorem reconnect_without_rejoin (c : RoomCtx) :
    roomStep .joined c .socketDisconnected = (.reconnecting, c, [])
    ∧ runRoom .joined c [.socketDisconnected, .socketConnected]
        = (.connectedWaiting, c, []) := by
  constructor <;> rfl

/-- C1 counterexample: from joined, the channel firing disconnected then
connected leaves the roomMachine in connected.waiting, not in joined. -/
theorem reconnect_lands_in_connected_waiting :
    (runRoom .joined ctxC1 [.socketDisconnected, .socketConnected]).1
        = RoomNode.connectedWaiting
    ∧ ¬ (runRoom .joined ctxC1 [.socketDisconnected, .socketConnected]).1
        = RoomNode.joined := by
  decide

/-- Filtering a list for an id after having filtered that id away yields
nothing. -/
theorem filter_eq_after_filter_ne (l : List MediaEntry) (mid : String) :
    (l.filter (fun x => ¬ x.id = mid)).filter (fun x => x.id = mid) = [] := by
  induction l with
  | nil => rfl
  | cons a t ih => by_cases h : a.id = mid <;> simp [h, ih]

/-- C9: MEDIA.CLOSED in any connected substate removes exactly the media
entries carrying the event's id, leaves the node, the roster and every
other media entry untouched, and — because the assign action filters the
list before the stop action runs — produces no stopActor effect: the
removed entry's actor is never stopped by the Session. -/
theorem media_closed_removal (s : RoomNode) (c : RoomCtx) (mid : String)
    (h : s.isConnected = true) :
    roomStep s c (.mediaClosed mid)
      = (s, { c with media := c.media.filter (fun x => ¬ x.id = mid) }, []) := by
  cases s <;>
    first
      | exact absurd h (by decide)
      | simp [roomStep, RoomNode.isConnected, filter_eq_after_filter_ne]

/-- C9 witness: closing media m1 in a joined room removes exactly that entry
and stops no actor. -/
theorem media_closed_removal_witness :
    RoomNode.joined.isConnected = true
    ∧ roomStep RoomNode.joined ctxC9 (.mediaClosed "m1")
        = (RoomNode.joined,
            { ctxC9 with media := ctxC9.media.filter (fun x => ¬ x.id = "m1") },
            []) :=
  ⟨rfl, media_closed_removal RoomNode.joined ctxC9 "m1" rfl⟩

/-- C4 counterexample: two send completions for the same
(type, deviceId, peerId) triple make the xstate roomMachine hold two
locally produced entries with that triple: the addMedia action appends
unconditionally and never deduplicates. -/
theorem duplicate_send_duplicates_triple :
    ¬ localTripleUnique
        ((runRoom RoomNode.joined {}
            [.localMediaAdded mediaEntryA, .localMediaAdded mediaEntryB]).2.1.media) := by
  decide

/-- C4 amended: the legacy room.js addMedia preserves the
at-most-one-local-entry-per-triple invariant — a duplicate send request
finds the matching entry, updates it in place and appends nothing — while
the xstate roomMachine's addMedia action appends the event's entry to the
media list unconditionally on every send. -/
theorem addMediaJS_preserves_unique (l l2 : List MediaEntry)
    (t d p newId : String) (hu : localTripleUnique l)
    (h : addMediaJS l t d p newId = some l2) :
    localTripleUnique l2
    ∧ (∀ (c : RoomCtx) (m : MediaEntry), (addMedia c m).media = c.media ++ [m]) := by
  refine ⟨?_, fun c m => rfl⟩
  unfold addMediaJS at h
  by_cases ht : t = ""
  · rw [if_pos ht] at h
    cases h
  · rw [if_neg ht] at h
    simp only at h
    cases hm : getMatchingMedia l
        { mtype := pickTruthy t, deviceId := pickTruthy d, peerId := pickTruthy p } with
    | some x =>
        rw [hm] at h
        injection h with h2
        subst h2
        exact hu
    | none =>
        rw [hm] at h
        injection h with h2
        subst h2
        unfold localTripleUnique
        rw [List.pairwise_append]
        refine ⟨hu, List.pairwise_singleton _ _, ?_⟩
        intro a ha b hb
        simp only [List.mem_singleton] at hb
        subst hb
        intro _ _ hsame
        obtain ⟨h1, h2, h3⟩ := hsame
        simp only at h1 h2 h3
        unfold getMatchingMedia at hm
        rw [List.find?_eq_none] at hm
        apply hm a ha
        simp only [matchesCriteria, pickTruthy, if_neg ht]
        by_cases hd : d = "" <;> by_cases hp : p = "" <;>
          simp [hd, hp, h1, h2, h3]

/-- C4 witness: adding a webcam media through the legacy addMedia to an
empty list appends one local entry and keeps the invariant. -/
theorem addMediaJS_preserves_unique_witness :
    localTripleUnique ([] : List MediaEntry)
    ∧ addMediaJS [] "webcam" "dev1" "me" "prod9"
        = some [{ id := "prod9", mtype := "webcam", deviceId := "dev1",
                  peerId := "me", isLocal := true }]
    ∧ localTripleUnique
        [{ id := "prod9", mtype := "webcam", deviceId := "dev1",
           peerId := "me", isLocal := true }] :=
  ⟨by decide, by decide,
    (addMediaJS_preserves_unique [] _ "webcam" "dev1" "me" "prod9"
        (by decide) (by decide)).1⟩

/-- C7 amended: the legacy room.js dispatch rejects every inbound request
with an unrecognized method using 404 "unknown method" (and never accepts
it), and the xstate notificationHandler ignores every notification with an
unrecognized name, leaving the Session context untouched; the xstate
requestHandler, however, answers only newConsumer and leaves any other
inbound request unanswered — neither accepted nor rejected. -/
theorem unknown_inbound_handling (name : String)
    (hreq : ¬ name = "event" ∧ ¬ name = "heartbeat"
      ∧ ¬ name = "mediasoup-notification" ∧ ¬ name = "active-speaker"
      ∧ ¬ name = "message")
    (hnotif : ¬ name = "newPeer" ∧ ¬ name = "peerClosed"
      ∧ ¬ name = "peerUpdated" ∧ ¬ name = "consumerClosed")
    (hnc : ¬ name = "newConsumer") :
    handleProtooRequestResponse name = .rejected 404 "unknown method"
    ∧ (∀ d : NotificationData, notificationOutcome name d = .ignored)
    ∧ (∀ b e, requestHandlerResponse name b e = none) := by
  obtain ⟨h1, h2, h3, h4, h5⟩ := hreq
  obtain ⟨n1, n2, n3, n4⟩ := hnotif
  refine ⟨?_, ?_, ?_⟩ <;>
    simp [handleProtooRequestResponse, notificationOutcome,
      requestHandlerResponse, h1, h2, h3, h4, h5, n1, n2, n3, n4, hnc]

/-- C7 witness: a made-up method is rejected 404 by the legacy dispatch. -/
theorem unknown_inbound_handling_witness :
    handleProtooRequestResponse "totallyUnknown"
        = ProtooResponse.rejected 404 "unknown method" :=
  (unknown_inbound_handling "totallyUnknown"
      ⟨by decide, by decide, by decide, by decide, by decide⟩
      ⟨by decide, by decide, by decide, by decide⟩ (by decide)).1

/-- C7 counterexample: the xstate requestHandler leaves an inbound request
with an unrecognized name unanswered — neither accepted nor rejected —
whatever a newConsumer attempt would have produced. -/
theorem unknown_request_unanswered :
    requestHandlerResponse "bogusRequest" true "" = none
    ∧ requestHandlerResponse "bogusRequest" false "" = none := by
  decide

/-- C8 amended: the legacy room.js channel uses exactly the claimed policy —
minimum 100ms, factor 2, maximum 10s, unbounded (forever) retries, every
backoff interval lying between 100ms and 10s and nondecreasing — while the
xstate socket service instead uses minimum 500ms, factor 2, maximum 10s,
and a cap of 30 retries. -/
theorem reconnection_policies :
    roomJsRetry
        = { minTimeout := 100, maxTimeout := 10000, factor := 2, retries := none }
    ∧ socketRetry
        = { minTimeout := 500, maxTimeout := 10000, factor := 2, retries := some 30 }
    ∧ (∀ n : Nat, 100 ≤ backoffInterval roomJsRetry n
        ∧ backoffInterval roomJsRetry n ≤ 10000
        ∧ backoffInterval roomJsRetry n ≤ backoffInterval roomJsRetry (n + 1)) := by
  refine ⟨rfl, rfl, fun n => ?_⟩
  simp only [backoffInterval, roomJsRetry]
  refine ⟨le_min (by norm_num) ?_, min_le_left _ _, min_le_min le_rfl ?_⟩
  · exact le_mul_of_one_le_right (by norm_num) (Nat.one_le_two_pow)
  · exact Nat.mul_le_mul le_rfl
      (Nat.pow_le_pow_right (by norm_num) (Nat.le_succ n))

/-- C8 counterexample: the xstate socket service's retry policy is not the
claimed one — its minimum interval is 500ms, not 100ms, and its retry
count is capped at 30 rather than effectively unbounded. -/
theorem socket_retry_differs :
    ¬ socketRetry.minTimeout = 100 ∧ socketRetry.retries = some 30
    ∧ ¬ socketRetry.retries = none := by
  decide

/-- C10: each of the five media-targeting commands whose mediaId matches no
context entry produces exactly a COMMAND_FAILED with reason
"Media not found" — no signaling request and no actor event — and the
COMMAND_FAILED event sent back to the roomMachine is unhandled, leaving
node, context and effects unchanged; ResumeMedia on an entry whose sole
capability (consumer or producer — entries never carry both) is already
closed produces exactly a COMMAND_FAILED "Media is closed" with no resume
request. -/
theorem command_error_handling (media : List CmdMedia) (cmd : Command)
    (gotTrack : Bool) (h : ∀ m ∈ media, ¬ m.id = cmd.mediaId) :
    handleCommand cmd media gotTrack
      = [.commandFailed cmd.name "Media not found"]
    ∧ (∀ s c, roomStep s c .commandFailed = (s, c, []))
    ∧ (∀ (mid : String) (m : CmdMedia),
        media.find? (fun x => x.id == mid) = some m →
        ¬ (m.hasConsumer = true ∧ m.hasProducer = true) →
        ((m.hasConsumer = true ∧ m.consumerClosed = true)
          ∨ (m.hasProducer = true ∧ m.producerClosed = true)) →
        handleCommand (.resumeMedia mid) media gotTrack
          = [.commandFailed "ResumeMedia" "Media is closed"]) := by
  refine ⟨?_, ?_, ?_⟩
  · have hfind : media.find? (fun x => x.id == cmd.mediaId) = none := by
      rw [List.find?_eq_none]
      intro a ha
      simp only [beq_iff_eq]
      exact h a ha
    cases cmd <;>
      simp only [Command.mediaId] at hfind <;>
      simp [handleCommand, Command.name, hfind]
  · intro s c
    cases s <;> rfl
  · intro mid m hfind2 hnotboth hclosed
    rcases hclosed with ⟨hc, hcc⟩ | ⟨hp, hpc⟩
    · simp [handleCommand, hfind2, hc, hcc]
    · have hc2 : m.hasConsumer = false := by
        cases hcon : m.hasConsumer
        · rfl
        · exact absurd ⟨hcon, hp⟩ hnotboth
      simp [handleCommand, hfind2, hc2, hp, hpc]

/-- C10 witness: against a context holding one closed consumer media, a
command for an unknown id fails with Media not found, and ResumeMedia on
the closed entry fails with Media is closed. -/
theorem command_error_handling_witness :
    (∀ m ∈ [cmdMediaClosed], ¬ m.id = (Command.pauseMedia "nope").mediaId)
    ∧ handleCommand (.pauseMedia "nope") [cmdMediaClosed] true
        = [.commandFailed "PauseMedia" "Media not found"]
    ∧ handleCommand (.resumeMedia "m7") [cmdMediaClosed] true
        = [.commandFailed "ResumeMedia" "Media is closed"] :=
  ⟨by decide,
    (command_error_handling [cmdMediaClosed] (.pauseMedia "nope") true (by decide)).1,
    (command_error_handling [cmdMediaClosed] (.pauseMedia "nope") true (by decide)).2.2
      "m7" cmdMediaClosed (by decide) (by decide) (by decide)⟩

end LightstreamWebRTC
